import Mathlib

/-!
Shallow embedding of `gazebo/rendering/OculusCamera.cc`, the adapter that
bridges the Gazebo rendering camera to the Oculus Rift SDK (OVR).  Floating
point values are modelled as exact rationals; OVR SDK objects (device
manager, HMD device, sensor, stereo configuration, sensor fusion) are
modelled as explicit data supplied by an environment, and the adapter's
effects on Ogre objects are recorded in explicit state structures.
-/

/-- A 3-component vector (Ogre::Vector3 / gazebo math::Vector3). -/
structure Vec3 where
  x : ℚ
  y : ℚ
  z : ℚ
deriving DecidableEq, Repr

/-- A 4-component vector (Ogre::Vector4). -/
structure Vec4 where
  x : ℚ
  y : ℚ
  z : ℚ
  w : ℚ
deriving DecidableEq, Repr

/-- OVR::Quatf, the OVR SDK quaternion with components (x, y, z, w). -/
structure OvrQuatf where
  x : ℚ
  y : ℚ
  z : ℚ
  w : ℚ
deriving DecidableEq, Repr

/-- The identity OVR quaternion (x = y = z = 0, w = 1). -/
def ovrQuatIdentity : OvrQuatf := ⟨0, 0, 0, 1⟩

/-- gazebo math::Quaternion, constructed as (w, x, y, z). -/
structure MathQuaternion where
  w : ℚ
  x : ℚ
  y : ℚ
  z : ℚ
deriving DecidableEq, Repr

/-- Squared Euclidean distance between two 3-vectors. -/
def vecDistSq (a b : Vec3) : ℚ :=
  (a.x - b.x) ^ 2 + (a.y - b.y) ^ 2 + (a.z - b.z) ^ 2

/-- `const float g_defaultNearClip = 0.1f` (OculusCamera.cc line 46). -/
def g_defaultNearClip : ℚ := 0.1

/-- `const float g_defaultFarClip = 5000.0f` (OculusCamera.cc line 47). -/
def g_defaultFarClip : ℚ := 5000

/-- `const float g_defaultIPD = 0.064f` (OculusCamera.cc line 48). -/
def g_defaultIPD : ℚ := 0.064

/-- `const float g_defautlProjectionCenterOffset = 0.14529906f` (line 49). -/
def g_defautlProjectionCenterOffset : ℚ := 0.14529906

/-- `const float g_defaultDistortion[4] = {1.0f, 0.22f, 0.24f, 0}` (line 50). -/
def g_defaultDistortion : Vec4 := ⟨1, 0.22, 0.24, 0⟩

/-- OVR::HMDInfo: the slice of the vendor hardware description the adapter
reads (the chromatic-aberration correction vector `ChromaAbCorrection`). -/
structure HMDInfo where
  chromaAbCorrection : Vec4
deriving DecidableEq, Repr

/-- OVR::Util::Render::StereoConfig: the vendor stereo configuration.  The
adapter only calls its getters; each getter is modelled as a field holding
the value the SDK would return. -/
structure StereoConfig where
  hmdInfo : HMDInfo
  distortionK0 : ℚ
  distortionK1 : ℚ
  distortionK2 : ℚ
  distortionK3 : ℚ
  ipd : ℚ
  projectionCenterOffset : ℚ
  eyeToScreenDistance : ℚ
  aspect : ℚ
  yfovRadians : ℚ
deriving DecidableEq, Repr

/-- `stereoConfig->SetHMDInfo(devinfo)` (OculusCamera.cc line 81): store the
HMD device info in the stereo configuration. -/
def setHMDInfo (sc : StereoConfig) (info : HMDInfo) : StereoConfig :=
  { sc with hmdInfo := info }

/-- Ogre::Matrix4 over exact rationals. -/
abbrev Mat4 := Matrix (Fin 4) (Fin 4) ℚ

/-- Ogre::Matrix4::setTrans: write the translation column (entries (0,3),
(1,3), (2,3)) of a 4x4 matrix. -/
def setTrans (m : Mat4) (v : Vec3) : Mat4 :=
  Matrix.of fun i j =>
    if i = 0 ∧ j = 3 then v.x
    else if i = 1 ∧ j = 3 then v.y
    else if i = 2 ∧ j = 3 then v.z
    else m i j

/-- The warp-shader fragment-program constants set on one eye's material in
`OculusCamera::Oculus` (lines 572-593). -/
structure WarpShaderParams where
  hmdWarpParam : Vec4
  chromAbParam : Vec4
  lensCenter : ℚ
deriving DecidableEq, Repr

/-- The shader constants `OculusCamera::Oculus` (lines 545-593) writes to the
left and right warp materials.  `HmdWarpParam` and `ChromAbParam` are chosen
by a null check on `stereoConfig`; the `LensCenter` computation dereferences
`stereoConfig` unconditionally, so with a null stereo configuration the
function faults, modelled as `none`. -/
def oculusShaderParams (sc : Option StereoConfig) :
    Option (WarpShaderParams × WarpShaderParams) :=
  let hmdwarp : Vec4 :=
    match sc with
    | some c => ⟨c.distortionK0, c.distortionK1, c.distortionK2, c.distortionK3⟩
    | none => g_defaultDistortion
  let hmdchrom : Vec4 :=
    match sc with
    | some c => c.hmdInfo.chromaAbCorrection
    | none => ⟨0.996, -0.004, 1.014, 0⟩
  match sc with
  | none => none
  | some c =>
    some (⟨hmdwarp, hmdchrom, 0.5 + c.projectionCenterOffset / 2⟩,
          ⟨hmdwarp, hmdchrom, 0.5 - c.projectionCenterOffset / 2⟩)

/-- `int idx = i * 2 - 1` for loop index `i` (OculusCamera.cc line 605):
-1 for the left eye (i = 0), +1 for the right eye (i = 1). -/
def eyeIdx (i : Fin 2) : ℤ := (i.val : ℤ) * 2 - 1

/-- The per-eye camera settings written by the loop body of
`OculusCamera::Oculus` (lines 600-626).  `baseProj` is the value of
`cam->getProjectionMatrix()`.  In the null-stereo-configuration fallback
branch no aspect ratio, field of view or custom projection is set. -/
structure EyeConfig where
  nearClip : ℚ
  farClip : ℚ
  position : Vec3
  aspect : Option ℚ
  fovy : Option ℚ
  customProj : Option Mat4

def oculusEyeConfig (sc : Option StereoConfig) (i : Fin 2) (baseProj : Mat4) :
    EyeConfig :=
  let idx : ℚ := ((eyeIdx i : ℤ) : ℚ)
  match sc with
  | some c =>
    { nearClip := c.eyeToScreenDistance
      farClip := g_defaultFarClip
      position := ⟨0, idx * c.ipd * 0.5 * (-1), 0⟩
      aspect := some c.aspect
      fovy := some c.yfovRadians
      customProj :=
        some (setTrans 1 ⟨-c.projectionCenterOffset * idx, 0, 0⟩ * baseProj) }
  | none =>
    { nearClip := g_defaultNearClip
      farClip := g_defaultFarClip
      position := ⟨idx * g_defaultIPD * 0.5, 0, 0⟩
      aspect := none
      fovy := none
      customProj := none }

/-- An OVR sensor device handle. -/
structure Sensor where
  id : Nat
deriving DecidableEq, Repr

/-- An OVR HMD device handle: its device info and the sensor
`hmd->GetSensor()` yields (null when unavailable). -/
structure HMDDevice where
  devinfo : HMDInfo
  sensor : Option Sensor
deriving DecidableEq, Repr

/-- OVR::SensorFusion, as configured by the adapter: whether prediction is
enabled, the sensor it is attached to, and the orientation the SDK currently
predicts (updated externally by the device between frames). -/
structure SensorFusionState where
  predictionEnabled : Bool
  attachedSensor : Option Sensor
  predictedOrientation : OvrQuatf
deriving DecidableEq, Repr

/-- `OVR::SensorFusion::Reset` (vendor SDK call): restores the fusion's
initial orientation state, here the identity orientation. -/
def sensorFusionReset (f : SensorFusionState) : SensorFusionState :=
  { f with predictedOrientation := ovrQuatIdentity }

/-- The OVR runtime environment the constructor probes: whether
`DeviceManager::Create` succeeds, what `new StereoConfig` yields (null on
allocation failure, else the SDK's default configuration), the enumerated
HMD device if any, the sensor obtained by direct sensor-device enumeration,
and whether `new SensorFusion` yields a non-null pointer. -/
structure OvrEnv where
  deviceManagerOk : Bool
  stereoAlloc : Option StereoConfig
  hmd : Option HMDDevice
  enumSensor : Option Sensor
  fusionAlloc : Bool
deriving DecidableEq, Repr

/-- The fields of a constructed OculusCamera that the claims refer to. -/
structure OculusCameraState where
  renderRate : ℚ
  stereoConfig : Option StereoConfig
  centerOffset : ℚ
  sensor : Sensor
  sensorFusion : Option SensorFusionState
  subscribedWorldControl : Bool
deriving DecidableEq, Repr

/-- `OculusCamera::OculusCamera` (OculusCamera.cc lines 53-114).  `gzthrow`
is modelled as `Except.error` carrying the thrown message.  When the HMD
device exists its device info is stored in the stereo configuration and its
sensor is used; otherwise the directly enumerated sensor is used.  A null
`SensorFusion` allocation logs and returns early (no throw), leaving the
fusion null and the world-control subscription not set up. -/
def oculusCameraCtor (env : OvrEnv) : Except String OculusCameraState :=
  if env.deviceManagerOk = false then
    Except.error "Oculus: Failed to create Device Manager"
  else
    match env.stereoAlloc with
    | none => Except.error "Oculus: Failed to create StereoConfig"
    | some sc0 =>
      let centerOffset := sc0.projectionCenterOffset
      let scAndSensor : StereoConfig × Option Sensor :=
        match env.hmd with
        | some h => (setHMDInfo sc0 h.devinfo, h.sensor)
        | none => (sc0, env.enumSensor)
      match scAndSensor.2 with
      | none => Except.error "Oculus: Failed to create sensor"
      | some s =>
        if env.fusionAlloc = false then
          Except.ok
            { renderRate := 30
              stereoConfig := some scAndSensor.1
              centerOffset := centerOffset
              sensor := s
              sensorFusion := none
              subscribedWorldControl := false }
        else
          Except.ok
            { renderRate := 30
              stereoConfig := some scAndSensor.1
              centerOffset := centerOffset
              sensor := s
              sensorFusion := some
                { predictionEnabled := true
                  attachedSensor := some s
                  predictedOrientation := ovrQuatIdentity }
              subscribedWorldControl := true }

/-- The sensor the constructor ends up with: from the HMD device when one is
present, otherwise from direct sensor-device enumeration (lines 75-89). -/
def ctorSensor (env : OvrEnv) : Option Sensor :=
  match env.hmd with
  | some h => h.sensor
  | none => env.enumSensor

/-- The stereo configuration the constructor ends up with: the allocated
default configuration, with the HMD device info stored in it when an HMD
device is present (lines 67-83). -/
def ctorStereo (env : OvrEnv) : Option StereoConfig :=
  match env.stereoAlloc with
  | none => none
  | some sc0 =>
    match env.hmd with
    | some h => some (setHMDInfo sc0 h.devinfo)
    | none => some sc0

/-- The camera's world pose (position and orientation). -/
structure CameraPose where
  pos : Vec3
  rot : MathQuaternion
deriving DecidableEq, Repr

/-- Modelled from the spec: `Camera::Update` (base class, not in this
repository's sources) is generic camera plumbing — it does not read the HMD
motion sensor — so it is modelled as leaving the world pose unchanged. -/
def cameraBaseUpdate (p : CameraPose) : CameraPose := p

/-- `OculusCamera::Update` (OculusCamera.cc lines 201-210): run the base
update, read the sensor fusion's predicted orientation `q`, and set the
world rotation to `math::Quaternion(q.w, -q.z, -q.x, q.y)`. -/
def oculusUpdate (p : CameraPose) (f : SensorFusionState) : CameraPose :=
  let p1 := cameraBaseUpdate p
  let q := f.predictedOrientation
  { p1 with rot := ⟨q.w, -q.z, -q.x, q.y⟩ }

/-- The `reset` submessage of a WorldControl message: `all` is present
exactly when `has_all()` is true. -/
structure ResetMsg where
  all : Option Bool
deriving DecidableEq, Repr

/-- A WorldControl message as read by `OculusCamera::OnControl`: `reset` is
present exactly when `has_reset()` is true. -/
structure WorldControlMsg where
  reset : Option ResetMsg
deriving DecidableEq, Repr

/-- `OculusCamera::OnControl` (lines 130-136) followed by
`OculusCamera::ResetSensor` (lines 213-216): the sensor fusion is reset when
the message has a reset field whose `all` field is present and true. -/
def onControl (f : SensorFusionState) (m : WorldControlMsg) :
    SensorFusionState :=
  if (match m.reset with
      | some r => (match r.all with | some b => b | none => false)
      | none => false) then
    sensorFusionReset f
  else
    f

/-- The slice of an Ogre::Camera the adapter's `Init` writes. -/
structure OgreCamera where
  name : String
  attachedNode : Nat
  autoAspectRatio : Bool
  nearClip : ℚ
  farClip : ℚ
  pitchDeg : ℚ
  fixedYawAxisZ : Bool
  direction : Vec3
deriving DecidableEq, Repr

/-- Modelled from the spec: the base `Camera::Init` (not in this
repository's sources) performs the generic scene-graph attachment of the
inherited camera to the adapter's scene node. -/
def cameraBaseInit (sceneNode : Nat) (cam : OgreCamera) : OgreCamera :=
  { cam with attachedNode := sceneNode }

/-- `OculusCamera::Init` (OculusCamera.cc lines 145-192), restricted to its
effect on the two eye cameras: after the base init, create the "UserRight"
camera, pitch it 90 degrees, fix its yaw axis to Z, set its direction to
(1,0,0), attach it to the scene node, disable auto aspect ratio on both
cameras and set both near/far clip distances to the defaults.  Returns
(left camera, right camera). -/
def oculusInit (sceneNode : Nat) (leftCam : OgreCamera) :
    OgreCamera × OgreCamera :=
  let lc := cameraBaseInit sceneNode leftCam
  let right : OgreCamera :=
    { name := "UserRight"
      attachedNode := sceneNode
      autoAspectRatio := false
      nearClip := g_defaultNearClip
      farClip := g_defaultFarClip
      pitchDeg := 90
      fixedYawAxisZ := true
      direction := ⟨1, 0, 0⟩ }
  let left := { lc with
    autoAspectRatio := false
    nearClip := g_defaultNearClip
    farClip := g_defaultFarClip }
  (left, right)

/-- The render path type reported by the render engine (RenderEngine.hh). -/
inductive RenderPathType where
  | VERTEX
  | DEFERRED
  | FORWARD
  | NONE
deriving DecidableEq, Repr

/-- The clip distances `OculusCamera::Init` passes to `SetClipDist` in its
switch over the render path type (lines 177-191): every branch passes the
same defaults. -/
def initClipDist (rp : RenderPathType) : ℚ × ℚ :=
  match rp with
  | RenderPathType.VERTEX => (g_defaultNearClip, g_defaultFarClip)
  | RenderPathType.DEFERRED => (g_defaultNearClip, g_defaultFarClip)
  | RenderPathType.FORWARD => (g_defaultNearClip, g_defaultFarClip)
  | RenderPathType.NONE => (g_defaultNearClip, g_defaultFarClip)

/-- A sample HMD info record, for concrete evaluation. -/
def sampleHMDInfo : HMDInfo := ⟨⟨0.996, -0.004, 1.014, 0⟩⟩

/-- A sample stereo configuration, for concrete evaluation. -/
def sampleStereo : StereoConfig :=
  { hmdInfo := sampleHMDInfo
    distortionK0 := 1
    distortionK1 := 0.22
    distortionK2 := 0.24
    distortionK3 := 0
    ipd := 0.064
    projectionCenterOffset := 0.14529906
    eyeToScreenDistance := 0.041
    aspect := 0.8
    yfovRadians := 1.9 }

/-- A sample OVR environment in which construction succeeds. -/
def sampleEnv : OvrEnv :=
  { deviceManagerOk := true
    stereoAlloc := some sampleStereo
    hmd := none
    enumSensor := some ⟨7⟩
    fusionAlloc := true }

/-- The sensor fusion state the constructor builds in `sampleEnv`. -/
def sampleFusion : SensorFusionState :=
  { predictionEnabled := true
    attachedSensor := some ⟨7⟩
    predictedOrientation := ovrQuatIdentity }

/-- The camera state the constructor yields in `sampleEnv`. -/
def sampleCtorState : OculusCameraState :=
  { renderRate := 30
    stereoConfig := some sampleStereo
    centerOffset := sampleStereo.projectionCenterOffset
    sensor := ⟨7⟩
    sensorFusion := some sampleFusion
    subscribedWorldControl := true }

/-- A sample camera pose, for concrete evaluation. -/
def samplePose : CameraPose := ⟨⟨1, 2, 3⟩, ⟨1, 0, 0, 0⟩⟩

/-- Claim C4: with a stereo configuration present, the warp shader's
HmdWarpParam is exactly the vendor stereo configuration's four DistortionK
coefficients and ChromAbParam is exactly the HMD info's ChromaAbCorrection
vector, and the left and right eye materials receive identical HmdWarpParam
and ChromAbParam values. -/
theorem oculusWarpParamsFromVendor :
    ∀ c : StereoConfig, ∃ L R,
      oculusShaderParams (some c) = some (L, R)
      ∧ L.hmdWarpParam =
          ⟨c.distortionK0, c.distortionK1, c.distortionK2, c.distortionK3⟩
      ∧ L.chromAbParam = c.hmdInfo.chromaAbCorrection
      ∧ R.hmdWarpParam = L.hmdWarpParam
      ∧ R.chromAbParam = L.chromAbParam :=
  fun _ => ⟨_, _, rfl, rfl, rfl, rfl, rfl⟩

/-- Claim C6: the warp-shader LensCenter constants are mirror images about
0.5 — the left eye receives 0.5 + ProjectionCenterOffset/2 and the right eye
0.5 - ProjectionCenterOffset/2 — so for every offset the two lens centers
sum to exactly 1. -/
theorem oculusLensCentersMirror :
    ∀ c : StereoConfig, ∃ L R,
      oculusShaderParams (some c) = some (L, R)
      ∧ L.lensCenter = 0.5 + c.projectionCenterOffset / 2
      ∧ R.lensCenter = 0.5 - c.projectionCenterOffset / 2
      ∧ L.lensCenter + R.lensCenter = 1 := by
  intro c
  refine ⟨_, _, rfl, rfl, rfl, ?_⟩
  show (0.5 + c.projectionCenterOffset / 2) +
      (0.5 - c.projectionCenterOffset / 2) = (1 : ℚ)
  ring

/-- Claim C3: each eye's custom projection matrix is the eye camera's base
projection matrix pre-multiplied by a pure x-translation of
-ProjectionCenterOffset * idx, so the left eye (idx = -1) receives a
translation of +offset and the right eye (idx = +1) one of -offset. -/
theorem oculusProjOffsetOpposite :
    ∀ (c : StereoConfig) (b : Mat4),
      (oculusEyeConfig (some c) 0 b).customProj =
        some (setTrans 1 ⟨c.projectionCenterOffset, 0, 0⟩ * b)
      ∧ (oculusEyeConfig (some c) 1 b).customProj =
        some (setTrans 1 ⟨-c.projectionCenterOffset, 0, 0⟩ * b) := by
  intro c b
  constructor
  · simp [oculusEyeConfig, show eyeIdx 0 = -1 from rfl, mul_neg_one, neg_neg]
  · simp [oculusEyeConfig, show eyeIdx 1 = 1 from rfl, mul_one]

/-- Claim C5 (amended): each Update() call sets the camera's world
orientation from the motion-sensor data (the remapped predicted
orientation); the world position is left unchanged. -/
theorem oculusUpdateRotOnlyFromSensor :
    ∀ (p : CameraPose) (f : SensorFusionState),
      (oculusUpdate p f).rot =
        ⟨f.predictedOrientation.w, -f.predictedOrientation.z,
         -f.predictedOrientation.x, f.predictedOrientation.y⟩
      ∧ (oculusUpdate p f).pos = p.pos :=
  fun _ _ => ⟨rfl, rfl⟩

/-- Claim C5 is false as stated: Update() never writes the camera's world
position from sensor data.  At a concrete pose, two sensor-fusion states
with different predicted orientations produce different world rotations but
the identical, unchanged world position. -/
theorem oculusUpdateLeavesPosition :
    (oculusUpdate ⟨⟨1, 2, 3⟩, ⟨1, 0, 0, 0⟩⟩
        ⟨true, some ⟨7⟩, ⟨0, 0, 0, 1⟩⟩).pos = ⟨1, 2, 3⟩
    ∧ (oculusUpdate ⟨⟨1, 2, 3⟩, ⟨1, 0, 0, 0⟩⟩
        ⟨true, some ⟨7⟩, ⟨1, 1, 1, 1⟩⟩).pos = ⟨1, 2, 3⟩
    ∧ (⟨true, some ⟨7⟩, ⟨0, 0, 0, 1⟩⟩ : SensorFusionState) ≠
        ⟨true, some ⟨7⟩, ⟨1, 1, 1, 1⟩⟩
    ∧ (oculusUpdate ⟨⟨1, 2, 3⟩, ⟨1, 0, 0, 0⟩⟩
        ⟨true, some ⟨7⟩, ⟨0, 0, 0, 1⟩⟩).rot ≠
      (oculusUpdate ⟨⟨1, 2, 3⟩, ⟨1, 0, 0, 0⟩⟩
        ⟨true, some ⟨7⟩, ⟨1, 1, 1, 1⟩⟩).rot :=
  ⟨rfl, rfl, by decide, by decide⟩

/-- Claim C7: after Init() the adapter holds exactly the two eye cameras —
the inherited left camera and the newly created "UserRight" camera —
attached to the same scene node, both with auto aspect ratio disabled and
with near/far clip distances 0.1 and 5000; the subsequent SetClipDist switch
passes the same 0.1/5000 on every render path. -/
theorem oculusInitTwoEyeCameras :
    ∀ (sceneNode : Nat) (leftCam : OgreCamera),
      (oculusInit sceneNode leftCam).2.name = "UserRight"
      ∧ (oculusInit sceneNode leftCam).1.attachedNode = sceneNode
      ∧ (oculusInit sceneNode leftCam).2.attachedNode = sceneNode
      ∧ (oculusInit sceneNode leftCam).1.autoAspectRatio = false
      ∧ (oculusInit sceneNode leftCam).2.autoAspectRatio = false
      ∧ (oculusInit sceneNode leftCam).1.nearClip = 0.1
      ∧ (oculusInit sceneNode leftCam).1.farClip = 5000
      ∧ (oculusInit sceneNode leftCam).2.nearClip = 0.1
      ∧ (oculusInit sceneNode leftCam).2.farClip = 5000
      ∧ ∀ rp, initClipDist rp = (0.1, 5000) := by
  intro sceneNode leftCam
  refine ⟨rfl, rfl, rfl, rfl, rfl, rfl, rfl, rfl, rfl, ?_⟩
  intro rp
  cases rp <;> rfl

/-- Claim C10: a world-control message resets the sensor fusion exactly when
it has a reset field whose `all` field is present and true; every other
message shape leaves the sensor-fusion state unchanged. -/
theorem onControlResetIffAll :
    ∀ f : SensorFusionState,
      onControl f ⟨none⟩ = f
      ∧ onControl f ⟨some ⟨none⟩⟩ = f
      ∧ onControl f ⟨some ⟨some false⟩⟩ = f
      ∧ onControl f ⟨some ⟨some true⟩⟩ = sensorFusionReset f :=
  fun _ => ⟨rfl, rfl, rfl, rfl⟩

/-- Claim C1: every constructed OculusCamera has prediction enabled on its
sensor fusion, and each Update() call reads the fusion's predicted
orientation (w, x, y, z) and sets the camera's world rotation to the
remapped quaternion (w, -z, -x, y), converting from the Oculus coordinate
system to the scene's coordinate system. -/
theorem oculusUpdateSetsRemappedOrientation :
    (∀ (env : OvrEnv) (st : OculusCameraState),
      oculusCameraCtor env = Except.ok st →
      ∀ fs, st.sensorFusion = some fs → fs.predictionEnabled = true)
    ∧ ∀ (p : CameraPose) (f : SensorFusionState),
        (oculusUpdate p f).rot =
          ⟨f.predictedOrientation.w, -f.predictedOrientation.z,
           -f.predictedOrientation.x, f.predictedOrientation.y⟩ := by
  constructor
  · intro env st h fs hfs
    obtain ⟨dm, sa, hmd, es, fa⟩ := env
    cases dm <;> cases fa <;> rcases sa with _ | sc0 <;>
      rcases hmd with _ | ⟨info, _ | s⟩ <;> rcases es with _ | t <;>
      first
      | (simp [oculusCameraCtor] at h
         subst h
         simp at hfs
         subst hfs
         rfl)
      | (simp [oculusCameraCtor] at h
         subst h
         simp at hfs)
      | simp [oculusCameraCtor] at h
  · intro p f
    rfl

/-- Claim C8: the constructor throws exactly when the device manager cannot
be created, the StereoConfig cannot be allocated, or no sensor can be
obtained; on success the sensor comes from the HMD device when one is
present (whose device info is stored in the stereo configuration), otherwise
from direct sensor-device enumeration. -/
theorem oculusCtorThrowIff :
    ∀ env : OvrEnv,
      ((∃ msg, oculusCameraCtor env = Except.error msg) ↔
        (env.deviceManagerOk = false ∨ env.stereoAlloc = none ∨
          ctorSensor env = none))
      ∧ ∀ st, oculusCameraCtor env = Except.ok st →
          some st.sensor = ctorSensor env ∧ st.stereoConfig = ctorStereo env := by
  intro env
  obtain ⟨dm, sa, hmd, es, fa⟩ := env
  cases dm <;> cases fa <;> rcases sa with _ | sc0 <;>
    rcases hmd with _ | ⟨info, _ | s⟩ <;> rcases es with _ | t <;>
    simp_all [oculusCameraCtor, ctorSensor, ctorStereo]

/-- Claim C9: a constructed OculusCamera always holds a non-null stereo
configuration, so in Oculus() the unconditional LensCenter dereference
cannot fault (the shader-parameter computation yields a value) and the
null-stereo-configuration fallback branches of the eye loop are not taken
(aspect, field of view and custom projection are all set). -/
theorem oculusStereoAlwaysPresent :
    ∀ (env : OvrEnv) (st : OculusCameraState),
      oculusCameraCtor env = Except.ok st →
      (∃ c, st.stereoConfig = some c)
      ∧ (oculusShaderParams st.stereoConfig).isSome = true
      ∧ ∀ (i : Fin 2) (b : Mat4),
          (oculusEyeConfig st.stereoConfig i b).customProj.isSome = true
          ∧ (oculusEyeConfig st.stereoConfig i b).aspect.isSome = true
          ∧ (oculusEyeConfig st.stereoConfig i b).fovy.isSome = true := by
  intro env st h
  obtain ⟨c, hc⟩ : ∃ c, st.stereoConfig = some c := by
    obtain ⟨dm, sa, hmd, es, fa⟩ := env
    cases dm <;> cases fa <;> rcases sa with _ | sc0 <;>
      rcases hmd with _ | ⟨info, _ | s⟩ <;> rcases es with _ | t <;>
      first
      | (simp [oculusCameraCtor] at h
         subst h
         simp_all)
      | simp [oculusCameraCtor] at h
  refine ⟨⟨c, hc⟩, ?_, ?_⟩
  · rw [hc]
    rfl
  · intro i b
    rw [hc]
    exact ⟨rfl, rfl, rfl⟩

/-- Claim C2: in Oculus() the two eye cameras are placed symmetrically at
plus and minus IPD/2 (left eye at +IPD/2, right eye at -IPD/2 on the offset axis),
so the distance between the two eye positions equals the IPD; in the
no-stereo-configuration fallback the same symmetric plus-and-minus IPD/2 separation
holds with the default IPD of 0.064. -/
theorem oculusEyeSeparationIPD :
    ∀ (c : StereoConfig) (b : Mat4), 0 ≤ c.ipd →
      ((oculusEyeConfig (some c) 0 b).position = ⟨0, c.ipd * 0.5, 0⟩
       ∧ (oculusEyeConfig (some c) 1 b).position = ⟨0, -(c.ipd * 0.5), 0⟩
       ∧ |(oculusEyeConfig (some c) 0 b).position.y -
            (oculusEyeConfig (some c) 1 b).position.y| = c.ipd
       ∧ vecDistSq (oculusEyeConfig (some c) 0 b).position
            (oculusEyeConfig (some c) 1 b).position = c.ipd ^ 2)
      ∧ ((oculusEyeConfig none 0 b).position = ⟨-(g_defaultIPD * 0.5), 0, 0⟩
       ∧ (oculusEyeConfig none 1 b).position = ⟨g_defaultIPD * 0.5, 0, 0⟩
       ∧ |(oculusEyeConfig none 0 b).position.x -
            (oculusEyeConfig none 1 b).position.x| = g_defaultIPD
       ∧ g_defaultIPD = 0.064) := by
  intro c b h
  have h0 : (oculusEyeConfig (some c) 0 b).position = ⟨0, c.ipd * 0.5, 0⟩ := by
    simp only [oculusEyeConfig, show eyeIdx 0 = -1 from rfl]
    norm_num
  have h1 : (oculusEyeConfig (some c) 1 b).position = ⟨0, -(c.ipd * 0.5), 0⟩ := by
    simp only [oculusEyeConfig, show eyeIdx 1 = 1 from rfl]
    norm_num
  have hd0 : (oculusEyeConfig none 0 b).position = ⟨-(g_defaultIPD * 0.5), 0, 0⟩ := by
    simp only [oculusEyeConfig, show eyeIdx 0 = -1 from rfl]
    norm_num
  have hd1 : (oculusEyeConfig none 1 b).position = ⟨g_defaultIPD * 0.5, 0, 0⟩ := by
    simp only [oculusEyeConfig, show eyeIdx 1 = 1 from rfl]
    norm_num
  refine ⟨⟨h0, h1, ?_, ?_⟩, hd0, hd1, ?_, ?_⟩
  · rw [h0, h1]
    have : (Vec3.mk 0 (c.ipd * 0.5) 0).y - (Vec3.mk 0 (-(c.ipd * 0.5)) 0).y
        = c.ipd := by
      show c.ipd * 0.5 - -(c.ipd * 0.5) = c.ipd
      ring
    rw [this, abs_of_nonneg h]
  · rw [h0, h1]
    show (0 - 0 : ℚ) ^ 2 + (c.ipd * 0.5 - -(c.ipd * 0.5)) ^ 2 + (0 - 0) ^ 2
        = c.ipd ^ 2
    ring
  · rw [hd0, hd1]
    show |(-(g_defaultIPD * 0.5) - g_defaultIPD * 0.5 : ℚ)| = g_defaultIPD
    rw [show (-(g_defaultIPD * 0.5) - g_defaultIPD * 0.5 : ℚ) = -g_defaultIPD
        by ring]
    rw [abs_neg, abs_of_nonneg (by norm_num [g_defaultIPD])]
  · rfl

/-- Witness for claim C1's theorem at a concrete environment and fusion
state. -/
theorem oculusUpdateSetsRemappedOrientation_witness :
    oculusCameraCtor sampleEnv = Except.ok sampleCtorState
    ∧ sampleCtorState.sensorFusion = some sampleFusion
    ∧ sampleFusion.predictionEnabled = true
    ∧ (oculusUpdate samplePose sampleFusion).rot =
        ⟨sampleFusion.predictedOrientation.w,
         -sampleFusion.predictedOrientation.z,
         -sampleFusion.predictedOrientation.x,
         sampleFusion.predictedOrientation.y⟩ :=
  ⟨rfl, rfl,
   oculusUpdateSetsRemappedOrientation.1 sampleEnv sampleCtorState rfl
     sampleFusion rfl,
   oculusUpdateSetsRemappedOrientation.2 samplePose sampleFusion⟩

/-- Witness for claim C8's theorem at a concrete environment. -/
theorem oculusCtorThrowIff_witness :
    oculusCameraCtor sampleEnv = Except.ok sampleCtorState
    ∧ (some sampleCtorState.sensor = ctorSensor sampleEnv
       ∧ sampleCtorState.stereoConfig = ctorStereo sampleEnv) :=
  ⟨rfl, (oculusCtorThrowIff sampleEnv).2 sampleCtorState rfl⟩

/-- Witness for claim C9's theorem at a concrete environment. -/
theorem oculusStereoAlwaysPresent_witness :
    oculusCameraCtor sampleEnv = Except.ok sampleCtorState
    ∧ ((∃ c, sampleCtorState.stereoConfig = some c)
       ∧ (oculusShaderParams sampleCtorState.stereoConfig).isSome = true
       ∧ ∀ (i : Fin 2) (b : Mat4),
           (oculusEyeConfig sampleCtorState.stereoConfig i b).customProj.isSome
             = true
           ∧ (oculusEyeConfig sampleCtorState.stereoConfig i b).aspect.isSome
             = true
           ∧ (oculusEyeConfig sampleCtorState.stereoConfig i b).fovy.isSome
             = true) :=
  ⟨rfl, oculusStereoAlwaysPresent sampleEnv sampleCtorState rfl⟩

/-- Witness for claim C2's theorem at a concrete stereo configuration and
base projection matrix. -/
theorem oculusEyeSeparationIPD_witness :
    0 ≤ sampleStereo.ipd
    ∧ (((oculusEyeConfig (some sampleStereo) 0 1).position =
          ⟨0, sampleStereo.ipd * 0.5, 0⟩
        ∧ (oculusEyeConfig (some sampleStereo) 1 1).position =
            ⟨0, -(sampleStereo.ipd * 0.5), 0⟩
        ∧ |(oculusEyeConfig (some sampleStereo) 0 1).position.y -
             (oculusEyeConfig (some sampleStereo) 1 1).position.y|
            = sampleStereo.ipd
        ∧ vecDistSq (oculusEyeConfig (some sampleStereo) 0 1).position
             (oculusEyeConfig (some sampleStereo) 1 1).position
            = sampleStereo.ipd ^ 2)
       ∧ ((oculusEyeConfig none 0 1).position = ⟨-(g_defaultIPD * 0.5), 0, 0⟩
        ∧ (oculusEyeConfig none 1 1).position = ⟨g_defaultIPD * 0.5, 0, 0⟩
        ∧ |(oculusEyeConfig none 0 1).position.x -
             (oculusEyeConfig none 1 1).position.x| = g_defaultIPD
        ∧ g_defaultIPD = 0.064)) :=
  ⟨by norm_num [sampleStereo],
   oculusEyeSeparationIPD sampleStereo 1 (by norm_num [sampleStereo])⟩
